import Mathlib

/-!
Verification of the minotaur network-server core (package server).

The definitions below are a shallow embedding of the Go sources:
server/server.go, server/options.go and server/conn.go. Stateful code is
modelled by explicit state passing; Go map iteration (whose order the Go
specification leaves unspecified) is modelled by an explicit iteration-order
oracle; run-time faults (nil dereference, closing a closed channel, handler
panics) are modelled as explicit fault values. Parts of the repository that
are not among these sources (message.go with the kind constants and the
deconstruct helpers, and utils/synchronization with the pool internals) are
modelled from the specification and marked as such in their doc comments.
-/

namespace Minotaur

/-- The supported network kinds, exactly those named by the switch in
Server.Run (server.go): the gnet stream and datagram kinds, unix, gRPC,
KCP, HTTP and WebSocket. -/
inductive Network
  | tcp | tcp4 | tcp6 | udp | udp4 | udp6 | unix | grpc | kcp | http | websocket
  deriving DecidableEq, Repr

/-- Modelled from the spec: the message kind discriminant (message.go is not
among these sources; the kinds are the ones server.go names). `empty` is the
zero kind that the pool release callback in Run resets to by data.t = 0. -/
inductive MessageType
  | empty | packet | error | cross | ticker
  deriving DecidableEq, Repr

/-- Modelled from the spec: the Error-kind action directives named by
server.go (MessageErrorActionNone, MessageErrorActionShutdown); any other
value is an unknown directive. -/
def MessageErrorActionNone : Nat := 0

/-- Modelled from the spec: the shutdown directive for Error-kind envelopes. -/
def MessageErrorActionShutdown : Nat := 1

/-- One untyped attribute of a message envelope (Go any). The constructors
cover the attribute shapes the server pushes: a connection (identified by its
address string), a raw packet, a WebSocket message type, an error value, an
error action directive, a captured stack string, a cross server id and a
ticker callback (identified opaquely). -/
inductive Attr
  | connection (ip : String)
  | bytes (data : List Nat)
  | wsType (t : Nat)
  | errVal (e : String)
  | action (a : Nat)
  | stack (s : String)
  | serverId (id : Int)
  | caller (id : Nat)
  deriving DecidableEq, Repr

/-- The pooled message envelope (struct Message): a kind plus an untyped
attribute list. -/
structure Message where
  t : MessageType
  attrs : List Attr
  deriving DecidableEq, Repr

/-- Run-time faults the model makes explicit. -/
inductive Fault
  | nilPoolDeref
  | nilFunctionCall
  deriving DecidableEq, Repr

/-- The release callback Run passes to synchronization.NewPool
(server.go, connectionInitHandle): data.t = 0; data.attrs = nil. -/
def resetMessage (_ : Message) : Message :=
  { t := MessageType.empty, attrs := [] }

/-- Modelled from the spec: the synchronization pool of message envelopes
(utils/synchronization is not among these sources). Get reuses a released
envelope or allocates a fresh zero-value one, as produced by the constructor
Run passes in; Release applies the reset callback and returns the envelope to
the free list. -/
structure MessagePool where
  free : List Message
  size : Int
  closed : Bool
  deriving DecidableEq, Repr

/-- Pool Get: reuse a released envelope or allocate a zero-value Message. -/
def MessagePool.get (p : MessagePool) : MessagePool × Message :=
  match p.free with
  | [] => (p, { t := MessageType.empty, attrs := [] })
  | m :: rest => ({ p with free := rest }, m)

/-- Pool Release: apply the reset callback from Run and return the envelope
to the free list. -/
def MessagePool.release (p : MessagePool) (m : Message) : MessagePool :=
  { p with free := resetMessage m :: p.free }

/-- Every envelope on the free list has been reset (kind empty, no attrs). -/
def poolClean (p : MessagePool) : Bool :=
  p.free.all (fun m => decide (m.t = MessageType.empty) && m.attrs.isEmpty)

/-- WebSocket message type constant (options.go): text frames. -/
def WebsocketMessageTypeText : Nat := 1

/-- WebSocket message type constant (options.go): binary frames. -/
def WebsocketMessageTypeBinary : Nat := 2

/-- WebSocket message type constant (options.go): close control frames. -/
def WebsocketMessageTypeClose : Nat := 8

/-- WebSocket message type constant (options.go): ping control frames. -/
def WebsocketMessageTypePing : Nat := 9

/-- WebSocket message type constant (options.go): pong control frames. -/
def WebsocketMessageTypePong : Nat := 10

/-- The five frame types accepted by the option validation switches in
options.go. -/
def validWsMessageType (t : Nat) : Bool :=
  t == WebsocketMessageTypeText || t == WebsocketMessageTypeBinary ||
  t == WebsocketMessageTypeClose || t == WebsocketMessageTypePing ||
  t == WebsocketMessageTypePong

/-- The Server state (struct Server, server.go), restricted to the fields the
verified operations read or write. messageChannel is the Go map from shard
key to channel, modelled as an association list from key to the FIFO queue
contents; messagePool is nil (none) until connectionInitHandle provisions
it. -/
structure Server where
  network : Network
  core : Int
  prod : Bool
  id : Int
  hasTicker : Bool
  certFile : String
  keyFile : String
  websocketWriteMessageType : Nat
  supportMessageTypes : List Nat
  messagePoolSize : Int
  messagePool : Option MessagePool
  messageChannel : List (Nat × List Message)
  initMessageChannel : Bool
  isShutdown : Bool
  deriving DecidableEq, Repr

/-- server.New (server.go): constructs a Server with core 1 and binary
WebSocket write type; the message pool and the channel map are not
provisioned here (nil). The gin, http and grpc handles carried for the HTTP
and gRPC kinds hold no state the verified operations read. -/
def newServer (network : Network) : Server :=
  { network := network
    core := 1
    prod := false
    id := 0
    hasTicker := false
    certFile := ""
    keyFile := ""
    websocketWriteMessageType := WebsocketMessageTypeBinary
    supportMessageTypes := []
    messagePoolSize := 0
    messagePool := none
    messageChannel := []
    initMessageChannel := false
    isShutdown := false }

/-- The construction options of options.go, as data. WithTicker stores a
ticker handle; WithCross stores the server id and registers the cross link;
WithGRPCServerOptions only replaces the grpc handle and is omitted. -/
inductive ServerOption
  | ticker (size : Int) (autonomy : Bool)
  | cross (name : String) (serverId : Int)
  | tls (certFile keyFile : String)
  | prod
  | websocketWriteMessageType (messageType : Nat)
  | websocketMessageType (messageTypes : List Nat)
  | messageBufferSize (size : Int)
  | multiCore (count : Int)
  deriving DecidableEq, Repr

/-- Application of one option to the server under construction
(options.go). WithTLS only applies for the HTTP and WebSocket kinds;
WithWebsocketWriteMessageType rejects invalid frame types with a warning;
WithWebsocketMessageType keeps only valid frame types and only applies on the
WebSocket kind; WithMessageBufferSize ignores non-positive sizes;
WithMultiCore corrects a count below 1 to 1. -/
def applyOption (srv : Server) : ServerOption → Server
  | ServerOption.ticker _ _ => { srv with hasTicker := true }
  | ServerOption.cross _ serverId => { srv with id := serverId }
  | ServerOption.tls c k =>
    match srv.network with
    | Network.http => { srv with certFile := c, keyFile := k }
    | Network.websocket => { srv with certFile := c, keyFile := k }
    | _ => srv
  | ServerOption.prod => { srv with prod := true }
  | ServerOption.websocketWriteMessageType t =>
    if validWsMessageType t then { srv with websocketWriteMessageType := t } else srv
  | ServerOption.websocketMessageType ts =>
    if srv.network ≠ Network.websocket then srv
    else { srv with supportMessageTypes := ts.filter validWsMessageType }
  | ServerOption.messageBufferSize n =>
    if n ≤ 0 then srv else { srv with messagePoolSize := n }
  | ServerOption.multiCore n =>
    if n < 1 then { srv with core := 1 } else { srv with core := n }

/-- Application of an option list, as New does. -/
def applyOptions (srv : Server) (opts : List ServerOption) : Server :=
  opts.foldl applyOption srv

/-- The connectionInitHandle closure in Server.Run (server.go): provisions
the message pool (defaulting a non-positive configured size to 100) with the
zero-value constructor and the reset releaser, and one buffered channel per
core, keyed 0 to core-1. -/
def connectionInit (s : Server) : Server :=
  let size := if s.messagePoolSize ≤ 0 then 100 else s.messagePoolSize
  { s with initMessageChannel := true
           messagePoolSize := size
           messagePool := some { free := [], size := size, closed := false }
           messageChannel := (List.range s.core.toNat).map (fun i => (i, [])) }

/-- Which network kinds make Run call connectionInitHandle: every kind of the
switch except gRPC and HTTP, which route through their own native servers and
never provision the shard pipeline. -/
def runProvision (s : Server) : Server :=
  match s.network with
  | Network.grpc => s
  | Network.http => s
  | _ => connectionInit s

/-- Enqueue a message at the end of the channel with key k. -/
def enqueue (chans : List (Nat × List Message)) (k : Nat) (m : Message) :
    List (Nat × List Message) :=
  chans.map (fun p => if p.1 = k then (p.1, p.2 ++ [m]) else p)

/-- A legal Go iteration order over the messageChannel map: some permutation
of its key set (the Go specification leaves the order unspecified and the
runtime randomizes it). -/
def validOrder (s : Server) (order : List Nat) : Prop :=
  List.Perm order (s.messageChannel.map Prod.fst)

/-- Server.PushMessage (server.go): gets an envelope from the pool, stamps
kind and attrs, appends the debug.Stack() capture as a final attribute when
the kind is Error, and sends the envelope on the first channel produced by
ranging over the messageChannel map, then breaks. `order` is the iteration
order of that range for this call and `stack` the captured stack. The result
carries the updated server and the key of the channel the envelope was sent
on (none when the map is empty, in which case the range body never runs).
Calling Get on the nil message pool is a nil-dereference fault. -/
def pushMessage (s : Server) (order : List Nat) (stack : String)
    (t : MessageType) (attrs : List Attr) : Except Fault (Server × Option Nat) :=
  match s.messagePool with
  | none => Except.error Fault.nilPoolDeref
  | some pool =>
    let gp := pool.get
    let msg1 : Message := { t := t, attrs := attrs }
    let msg := if msg1.t = MessageType.error then
        { msg1 with attrs := msg1.attrs ++ [Attr.stack stack] } else msg1
    match order.head? with
    | none => Except.ok ({ s with messagePool := some gp.1 }, none)
    | some k => Except.ok
        ({ s with messagePool := some gp.1,
                  messageChannel := enqueue s.messageChannel k msg }, some k)

/-- The push Run performs when an asynchronous serve call fails:
PushMessage(MessageTypeError, err, MessageErrorActionShutdown). -/
def serveFailurePush (s : Server) (order : List Nat) (stack : String)
    (e : String) : Except Fault (Server × Option Nat) :=
  pushMessage s order stack MessageType.error
    [Attr.errVal e, Attr.action MessageErrorActionShutdown]

/-- A provisioned single-core server (the default core count) on a stream
network. -/
def oneCoreServer : Server := runProvision (newServer Network.tcp)

/-- A provisioned server configured with two cores. -/
def twoCoreServer : Server :=
  runProvision (applyOption (newServer Network.tcp) (ServerOption.multiCore 2))

/-- The three transport handles a Conn can hold (conn.go): a gorilla
WebSocket session, a gnet connection or a KCP session. -/
inductive Transport
  | ws | gn | kcp
  deriving DecidableEq, Repr

/-- The transport write primitive a Conn write closure invokes, with its
arguments: ws.WriteMessage(messageType, data), conn.AsyncWrite(data) or
session.Write(data). Producing one of these values is the model of touching
the transport handle. -/
inductive WriteOp
  | wsWriteMessage (messageType : Nat) (data : List Nat)
  | gnAsyncWrite (data : List Nat)
  | kcpWrite (data : List Nat)
  deriving DecidableEq, Repr

/-- The server connection (struct Conn, conn.go): an address string, at most
one transport handle, and a write closure over that handle which Close nils
out. The per-connection key/value store is carried but not consulted by any
verified operation. -/
structure Conn where
  ip : String
  hasWs : Bool
  hasGn : Bool
  hasKcp : Bool
  write : Option (List Nat → WriteOp)

/-- newWebsocketConn (conn.go): the write closure calls
ws.WriteMessage(websocket.BinaryMessage, data); gorilla BinaryMessage is 2,
the same value as WebsocketMessageTypeBinary. Note that conn.go defines this
constructor over (ws, ip) only and consults no server state, while server.go
invokes it with the server as an extra first argument; the sources give no
other definition, so the write type is the constant binary one. -/
def newWebsocketConn (ip : String) : Conn :=
  { ip := ip, hasWs := true, hasGn := false, hasKcp := false,
    write := some (fun data => WriteOp.wsWriteMessage WebsocketMessageTypeBinary data) }

/-- newGNetConn (conn.go): the write closure calls conn.AsyncWrite(data). -/
def newGNetConn (ip : String) : Conn :=
  { ip := ip, hasWs := false, hasGn := true, hasKcp := false,
    write := some (fun data => WriteOp.gnAsyncWrite data) }

/-- newKcpConn (conn.go): the write closure calls session.Write(data). -/
def newKcpConn (ip : String) : Conn :=
  { ip := ip, hasWs := false, hasGn := false, hasKcp := true,
    write := some (fun data => WriteOp.kcpWrite data) }

/-- Conn.Write (conn.go): return slf.write(data). Calling the closure after
Close has nilled it is a nil-function-call fault; otherwise the result
records the transport primitive invoked. -/
def Conn.Write (c : Conn) (data : List Nat) : Except Fault WriteOp :=
  match c.write with
  | none => Except.error Fault.nilFunctionCall
  | some f => Except.ok (f data)

/-- Conn.Close (conn.go): close the one transport handle present (checking
ws, then gn, then kcp) and nil out the write closure. The second component
records which handle was closed. -/
def Conn.Close (c : Conn) : Conn × Option Transport :=
  ({ c with write := none },
   if c.hasWs then some Transport.ws
   else if c.hasGn then some Transport.gn
   else if c.hasKcp then some Transport.kcp
   else none)

/-- A non-nil Go panic value: either a value implementing error, or any
other value. -/
inductive PanicVal
  | errVal (e : String)
  | other (s : String)
  deriving DecidableEq, Repr

/-- Whether the hook invocations performed by the switch of dispatchMessage
for one envelope return normally or raise an unrecovered fault. -/
inductive HandlerOutcome
  | ok
  | panicked (v : PanicVal)
  deriving DecidableEq, Repr

/-- The observable effects of one Server.dispatchMessage call: the
log.Error records emitted by the recover branch (message kind, attrs and
fault value), the OnMessageErrorEvent invocations, whether the low-exec
warning fired, whether the envelope was released to the pool, and the pool
after the call. -/
structure DispatchResult where
  faultLogs : List (MessageType × List Attr × PanicVal)
  errorHookCalls : List (Message × String)
  lowExecWarned : Bool
  released : Bool
  pool : MessagePool
  deriving DecidableEq, Repr

/-- Server.dispatchMessage (server.go): the switch body invokes the
registered hooks for the envelope kind, abstracted here by `outcome`; the
deferred block then recovers any (non-nil) panic, logs kind/attrs/fault,
invokes OnMessageErrorEvent only when the recovered value is an error, warns
when the elapsed cost exceeds 100ms, and releases the envelope to the pool
unless the shutdown flag is set. Because the deferred recover consumes the
panic, the call always returns normally. -/
def dispatchMessage (isShutdown : Bool) (pool : MessagePool) (msg : Message)
    (outcome : HandlerOutcome) (costMs : Nat) : DispatchResult :=
  { faultLogs :=
      match outcome with
      | HandlerOutcome.ok => []
      | HandlerOutcome.panicked v => [(msg.t, msg.attrs, v)]
    errorHookCalls :=
      match outcome with
      | HandlerOutcome.panicked (PanicVal.errVal e) => [(msg, e)]
      | _ => []
    lowExecWarned := decide (costMs > 100)
    released := !isShutdown
    pool := if isShutdown then pool else pool.release msg }

/-- The per-shard dispatch loop started by Run: for message := range
messageChannel { dispatchMessage(message) }. Each queued envelope comes with
the outcome and cost of its handler invocation; since dispatchMessage always
returns normally, the loop dispatches every envelope in queue order. -/
def dispatchLoop (isShutdown : Bool) (pool : MessagePool) :
    List (Message × HandlerOutcome × Nat) → List DispatchResult × MessagePool
  | [] => ([], pool)
  | item :: rest =>
    let r := dispatchMessage isShutdown pool item.1 item.2.1 item.2.2
    let tail := dispatchLoop isShutdown r.pool rest
    (r :: tail.1, tail.2)

/-- Modelled from the spec: MessageType.deconstructError (message.go is not
among these sources) decodes the Error-kind attribute contract of an error
value, an action directive and the captured stack. -/
def deconstructError (attrs : List Attr) : Option (String × Nat × String) :=
  match attrs with
  | [Attr.errVal e, Attr.action a, Attr.stack s] => some (e, a, s)
  | _ => none

/-- What the MessageTypeError arm of dispatchMessage does with a decoded
envelope. -/
inductive ErrorArmEffect
  | loggedErrorWithStack (e : String) (s : String)
  | shutdownInvoked (e : String) (s : String)
  | warnedUnknownAction (a : Nat)
  | decodeFault
  deriving DecidableEq, Repr

/-- The MessageTypeError arm of the dispatchMessage switch (server.go):
directive none logs the error with its stack, directive shutdown calls
Shutdown(err, stack), and any other directive logs a warning. A malformed
attribute list is a decode fault (a failed type assertion, recovered by the
dispatch boundary). -/
def dispatchErrorArm (attrs : List Attr) : ErrorArmEffect :=
  match deconstructError attrs with
  | none => ErrorArmEffect.decodeFault
  | some (e, a, s) =>
    if a = MessageErrorActionNone then ErrorArmEffect.loggedErrorWithStack e s
    else if a = MessageErrorActionShutdown then ErrorArmEffect.shutdownInvoked e s
    else ErrorArmEffect.warnedUnknownAction a

/-- The failure points of the listeners Server.Run starts, one per network
family: the synchronous gRPC net.Listen and KCP ListenWithOptions binds, the
asynchronous gRPC Serve, gnet Serve (TCP/UDP/Unix), HTTP ListenAndServe(TLS)
and WebSocket http.ListenAndServe(TLS) calls, and the KCP AcceptKCP loop. -/
inductive ListenerFailure
  | grpcBind | grpcServe | gnetServe | kcpBind | kcpAccept | httpServe | websocketServe
  deriving DecidableEq, Repr

/-- How Run reacts to a listener failure. -/
inductive FailureRouting
  | returnedFromRun
  | pushedErrorShutdown
  | ignored
  deriving DecidableEq, Repr

/-- The routing of each listener failure, transcribed from the switch in
Server.Run: the two synchronous binds return their error from Run before any
goroutine starts; each failed asynchronous serve call pushes
PushMessage(MessageTypeError, err, MessageErrorActionShutdown); a failed
AcceptKCP is skipped with continue. -/
def runFailureRouting : ListenerFailure → FailureRouting
  | ListenerFailure.grpcBind => FailureRouting.returnedFromRun
  | ListenerFailure.grpcServe => FailureRouting.pushedErrorShutdown
  | ListenerFailure.gnetServe => FailureRouting.pushedErrorShutdown
  | ListenerFailure.kcpBind => FailureRouting.returnedFromRun
  | ListenerFailure.kcpAccept => FailureRouting.ignored
  | ListenerFailure.httpServe => FailureRouting.pushedErrorShutdown
  | ListenerFailure.websocketServe => FailureRouting.pushedErrorShutdown

/-- One read observed by the WebSocket per-connection loop: a frame with its
message type and payload, or a read (or deadline) error. -/
inductive WsRead
  | frame (messageType : Nat) (packet : List Nat)
  | readErr
  deriving DecidableEq, Repr

/-- The result of running the WebSocket read loop over a sequence of reads:
the Packet envelopes pushed (kind, connection, raw payload, frame type) and
the number of OnConnectionClosedEvent invocations performed so far. -/
structure WsLoopResult where
  pushed : List Message
  closedEvents : Nat
  deriving DecidableEq, Repr

/-- The per-connection WebSocket read loop of Server.Run together with its
deferred recover: a read error panics, a frame whose type is outside a
non-empty allow-list panics with ErrWebsocketIllegalMessageType, and the
deferred recover fires OnConnectionClosedEvent exactly once for the
panicking loop; every permitted frame is pushed as
PushMessage(MessageTypePacket, conn, packet, messageType) with the payload
unchanged. An exhausted read list models a connection still being served:
no close event has fired yet. -/
def wsReadLoop (supports : List Nat) (ip : String) : List WsRead → WsLoopResult
  | [] => { pushed := [], closedEvents := 0 }
  | WsRead.readErr :: _ => { pushed := [], closedEvents := 1 }
  | WsRead.frame mt pk :: rest =>
    if supports.length > 0 && !(supports.contains mt) then
      { pushed := [], closedEvents := 1 }
    else
      let r := wsReadLoop supports ip rest
      { pushed := { t := MessageType.packet,
                    attrs := [Attr.connection ip, Attr.bytes pk, Attr.wsType mt] } :: r.pushed,
        closedEvents := r.closedEvents }

/-- The shared state Server.Shutdown mutates, with instrumentation counting
how often each release step ran: the atomic shutdown flag, the
initMessageChannel flag, and counters for ticker releases, shard channel
closes and pool closes. panicked records a close of an already closed
channel, which panics in Go. -/
structure ShutGlobal where
  isShutdown : Bool
  hasTicker : Bool
  initMessageChannel : Bool
  tickerReleaseCount : Nat
  channelCloseCount : Nat
  poolCloseCount : Nat
  panicked : Bool
  deriving DecidableEq, Repr

/-- One atomic step of Server.Shutdown (server.go) for a thread at program
point pc. pc 0: isShutdown.Store(true); pc 1: release the ticker if present
and the cross links; pc 2: read initMessageChannel and branch (the gnet stop
with its 3s deadline sits between this check and the closes); pc 3: close
every message channel, which panics if they are already closed; pc 4:
messagePool.Close(); pc 5: initMessageChannel = false; pc 6: terminal (the
gRPC stop, HTTP shutdown and logging touch no pipeline state). A panicked
machine takes no further steps. -/
def shutStep (g : ShutGlobal) (pc : Nat) : ShutGlobal × Nat :=
  if g.panicked then (g, pc)
  else match pc with
  | 0 => ({ g with isShutdown := true }, 1)
  | 1 => (if g.hasTicker then
            { g with tickerReleaseCount := g.tickerReleaseCount + 1 } else g, 2)
  | 2 => if g.initMessageChannel then (g, 3) else (g, 6)
  | 3 => ({ g with channelCloseCount := g.channelCloseCount + 1,
                   panicked := decide (0 < g.channelCloseCount) }, 4)
  | 4 => ({ g with poolCloseCount := g.poolCloseCount + 1 }, 5)
  | 5 => ({ g with initMessageChannel := false }, 6)
  | _ => (g, pc)

/-- Run one thread of Shutdown for a bounded number of steps. -/
def runThread : Nat → ShutGlobal → Nat → ShutGlobal × Nat
  | 0, g, pc => (g, pc)
  | n + 1, g, pc =>
    let s := shutStep g pc
    runThread n s.1 s.2

/-- One complete sequential call of Server.Shutdown: run a single thread
from pc 0 to the terminal point (8 steps suffice). Returns the state and the
final program point (6 when the call completed). -/
def shutdownCall (g : ShutGlobal) : ShutGlobal × Nat := runThread 8 g 0

/-- Two concurrent Shutdown calls under an explicit interleaving schedule:
true steps the first thread, false the second. -/
def runSched : List Bool → ShutGlobal → Nat → Nat → ShutGlobal × Nat × Nat
  | [], g, pc0, pc1 => (g, pc0, pc1)
  | b :: rest, g, pc0, pc1 =>
    if b then
      let s := shutStep g pc0
      runSched rest s.1 s.2 pc1
    else
      let s := shutStep g pc1
      runSched rest s.1 pc0 s.2

/-- A running engine about to shut down: pipeline initialized, ticker
present, nothing released yet. -/
def shutInit : ShutGlobal :=
  { isShutdown := false, hasTicker := true, initMessageChannel := true,
    tickerReleaseCount := 0, channelCloseCount := 0, poolCloseCount := 0,
    panicked := false }

/-- The key of the channel a PushMessage of a Packet envelope was sent on,
when the call succeeded. -/
def pushTarget (s : Server) (order : List Nat) : Option Nat :=
  match pushMessage s order "" MessageType.packet [] with
  | Except.ok p => p.2
  | Except.error _ => none

theorem dispatchLoop_length (sd : Bool) (pool : MessagePool)
    (items : List (Message × HandlerOutcome × Nat)) :
    (dispatchLoop sd pool items).1.length = items.length := by
  induction items generalizing pool with
  | nil => simp [dispatchLoop]
  | cons item rest ih => simp [dispatchLoop, ih]

theorem enqueue_lookup (chans : List (Nat × List Message)) (k : Nat) (m : Message) :
    (enqueue chans k m).lookup k = (chans.lookup k).map (fun q => q ++ [m]) := by
  induction chans with
  | nil => rfl
  | cons p rest ih =>
    rw [enqueue, List.map_cons]
    by_cases h : p.1 = k
    · subst h
      rw [if_pos rfl]
      simp [List.lookup]
    · rw [if_neg h]
      have hb : (k == p.1) = false := by simp [Ne.symm h]
      have he : List.map (fun p => if p.1 = k then (p.1, p.2 ++ [m]) else p) rest
          = enqueue rest k m := rfl
      simp [List.lookup, hb, he, ih]

theorem pushMessage_eq (s : Server) (pool : MessagePool) (order : List Nat) (k : Nat)
    (st : String) (t : MessageType) (attrs : List Attr)
    (hp : s.messagePool = some pool) (hk : order.head? = some k) :
    pushMessage s order st t attrs = Except.ok
      ({ s with messagePool := some pool.get.1,
                messageChannel := enqueue s.messageChannel k
                  (if t = MessageType.error
                   then { t := t, attrs := attrs ++ [Attr.stack st] }
                   else { t := t, attrs := attrs }) }, some k) := by
  unfold pushMessage
  rw [hp]
  simp only [hk]

/-- C3: the fault-isolation boundary of dispatchMessage. A handler fault on
an envelope is captured and logged with the envelope kind, attributes and
fault value exactly once; the message-error hook is invoked exactly when the
fault value is an error; and the per-shard dispatch loop dispatches every
queued envelope in order, the envelope after a faulting one included — the
boundary never lets a handler fault terminate the loop. -/
theorem dispatch_fault_isolation :
    (∀ sd pool items, (dispatchLoop sd pool items).1.length = items.length)
  ∧ (∀ sd pool items (item : Message × HandlerOutcome × Nat),
      (dispatchLoop sd pool (item :: items)).1 =
        dispatchMessage sd pool item.1 item.2.1 item.2.2 ::
          (dispatchLoop sd (dispatchMessage sd pool item.1 item.2.1 item.2.2).pool items).1)
  ∧ (∀ sd pool m v c, (dispatchMessage sd pool m (HandlerOutcome.panicked v) c).faultLogs
      = [(m.t, m.attrs, v)])
  ∧ (∀ sd pool m c, (dispatchMessage sd pool m HandlerOutcome.ok c).faultLogs = []
      ∧ (dispatchMessage sd pool m HandlerOutcome.ok c).errorHookCalls = [])
  ∧ (∀ sd pool m e c,
      (dispatchMessage sd pool m (HandlerOutcome.panicked (PanicVal.errVal e)) c).errorHookCalls
        = [(m, e)])
  ∧ (∀ sd pool m s2 c,
      (dispatchMessage sd pool m (HandlerOutcome.panicked (PanicVal.other s2)) c).errorHookCalls
        = []) := by
  refine ⟨dispatchLoop_length, ?_, ?_, ?_, ?_, ?_⟩ <;> intros <;>
    simp [dispatchLoop, dispatchMessage]

/-- C5: after the dispatch boundary closes, the envelope is released back to
the pool exactly when the shutdown flag is not set; a release resets the
envelope kind to the zero kind and clears its attribute list before it
reaches the free list; and getting an envelope from a pool whose free list
holds only reset envelopes yields an envelope with the zero kind and no
attributes, so a reused envelope never carries stale kind or attributes. -/
theorem dispatch_release_and_reset :
    (∀ pool m oc c, (dispatchMessage true pool m oc c).released = false
        ∧ (dispatchMessage true pool m oc c).pool = pool)
  ∧ (∀ pool m oc c, (dispatchMessage false pool m oc c).released = true
        ∧ (dispatchMessage false pool m oc c).pool.free = resetMessage m :: pool.free)
  ∧ (∀ m, (resetMessage m).t = MessageType.empty ∧ (resetMessage m).attrs = [])
  ∧ (∀ p : MessagePool, poolClean p = true →
        (p.get.2.t = MessageType.empty ∧ p.get.2.attrs = [])
        ∧ ∀ m, poolClean (p.release m) = true) := by
  refine ⟨?_, ?_, ?_, ?_⟩
  · intro pool m oc c
    exact ⟨rfl, rfl⟩
  · intro pool m oc c
    exact ⟨rfl, rfl⟩
  · intro m
    exact ⟨rfl, rfl⟩
  · intro p hclean
    constructor
    · match hfree : p.free with
      | [] =>
        simp [MessagePool.get, hfree]
      | m :: rest =>
        have hm : decide (m.t = MessageType.empty) = true ∧ m.attrs.isEmpty = true := by
          have h2 := hclean
          rw [poolClean, hfree] at h2
          have h3 := List.all_eq_true.mp h2 m (by simp)
          simpa [Bool.and_eq_true] using h3
        simp only [MessagePool.get, hfree]
        exact ⟨by simpa using hm.1, by simpa [List.isEmpty_iff] using hm.2⟩
    · intro m
      rw [poolClean, MessagePool.release, List.all_cons]
      rw [poolClean] at hclean
      simp [resetMessage, hclean]

/-- Witness for C5 at the empty, clean pool. -/
theorem dispatch_release_and_reset_witness :
    poolClean { free := [], size := 100, closed := false } = true
  ∧ ((({ free := [], size := 100, closed := false } : MessagePool).get.2.t = MessageType.empty
      ∧ ({ free := [], size := 100, closed := false } : MessagePool).get.2.attrs = [])
     ∧ ∀ m, poolClean (({ free := [], size := 100, closed := false } : MessagePool).release m)
        = true) :=
  ⟨by decide, dispatch_release_and_reset.2.2.2 _ (by decide)⟩

/-- C9: Conn.Close closes the one underlying transport handle the connection
holds and nils out the write closure, so every subsequent Conn.Write on that
connection fails fast with a nil function call and produces no transport
write operation on the closed handle. -/
theorem conn_close_disables_write :
    (∀ ip, ((newWebsocketConn ip).Close).2 = some Transport.ws
         ∧ ((newGNetConn ip).Close).2 = some Transport.gn
         ∧ ((newKcpConn ip).Close).2 = some Transport.kcp)
  ∧ (∀ c data, ((Conn.Close c).1.Write data) = Except.error Fault.nilFunctionCall) := by
  constructor
  · intro ip
    exact ⟨rfl, rfl, rfl⟩
  · intro c data
    rfl

/-- C8 (code bug): the configured outbound WebSocket frame type is ignored
by writes. New defaults websocketWriteMessageType to binary and
WithWebsocketWriteMessageType(text) stores the text type on the server, but
the write closure built by newWebsocketConn (conn.go) sends every frame with
the constant binary type and never reads that field, so a server configured
for text frames still writes binary frames. -/
theorem websocket_write_type_ignored :
    (newServer Network.websocket).websocketWriteMessageType = WebsocketMessageTypeBinary
  ∧ (applyOption (newServer Network.websocket)
      (ServerOption.websocketWriteMessageType WebsocketMessageTypeText)).websocketWriteMessageType
      = WebsocketMessageTypeText
  ∧ ((newWebsocketConn "127.0.0.1").Write [0])
      = Except.ok (WriteOp.wsWriteMessage WebsocketMessageTypeBinary [0])
  ∧ WebsocketMessageTypeText ≠ WebsocketMessageTypeBinary := by
  refine ⟨rfl, by decide, rfl, by decide⟩

/-- C1 counterexample: on a two-core server both [1, 0] and [0, 1] are legal
Go iteration orders over the channel map, and PushMessage enqueues on
channel 1 under the first and on channel 0 under the second. The shard is
the head of an iteration order the Go specification leaves unspecified, so
two PushMessage calls need not land on the same shard and a designated
shard 0 is not always chosen. -/
theorem pushMessage_shard_not_fixed :
    validOrder twoCoreServer [1, 0] ∧ validOrder twoCoreServer [0, 1]
  ∧ pushTarget twoCoreServer [1, 0] = some 1
  ∧ pushTarget twoCoreServer [0, 1] = some 0
  ∧ (some 1 : Option Nat) ≠ some 0 := by
  refine ⟨?_, ?_, by decide, by decide, by decide⟩
  · exact List.Perm.swap 0 1 []
  · exact List.Perm.refl _
/-- C1 (amended): PushMessage enqueues the envelope on the first channel of
the unspecified Go map iteration order over messageChannel; with the default
single core the key set is the single key 0, so every valid iteration order
sends every envelope to shard 0, but with two or more cores no fixed shard
is designated. -/
theorem pushMessage_first_iterated_shard (s : Server) (pool : MessagePool)
    (order : List Nat) (st : String) (t : MessageType) (attrs : List Attr)
    (hp : s.messagePool = some pool) :
    (∃ s2, pushMessage s order st t attrs = Except.ok (s2, order.head?))
  ∧ (s.messageChannel.map Prod.fst = [0] → validOrder s order → order.head? = some 0) := by
  constructor
  · cases horder : order.head? with
    | none =>
      refine ⟨{ s with messagePool := some pool.get.1 }, ?_⟩
      unfold pushMessage
      rw [hp]
      simp only [horder]
    | some k =>
      exact ⟨_, pushMessage_eq s pool order k st t attrs hp horder⟩
  · intro h1 h2
    rw [validOrder, h1] at h2
    rw [List.perm_singleton.mp h2]
    rfl

/-- Witness for the amended C1 at the provisioned single-core server. -/
theorem pushMessage_first_iterated_shard_witness :
    oneCoreServer.messagePool = some { free := [], size := 100, closed := false }
  ∧ ((∃ s2, pushMessage oneCoreServer [0] "" MessageType.packet []
        = Except.ok (s2, ([0] : List Nat).head?))
     ∧ (oneCoreServer.messageChannel.map Prod.fst = [0] →
          validOrder oneCoreServer [0] → ([0] : List Nat).head? = some 0)) :=
  ⟨by decide,
   pushMessage_first_iterated_shard oneCoreServer { free := [], size := 100, closed := false }
     [0] "" MessageType.packet [] (by decide)⟩

/-- C2 counterexample: a concrete interleaving of two concurrent Shutdown
calls in which both threads observe initMessageChannel still true before
either clears it, so both close the shard channels: the channels are closed
twice and the second close panics. The atomic shutdown flag does not guard
the sequence because Shutdown only stores it and never reads it. -/
theorem shutdown_concurrent_double_close :
    (runSched [true, true, true, false, false, false, true, false] shutInit 0 0).1.channelCloseCount
      = 2
  ∧ (runSched [true, true, true, false, false, false, true, false] shutInit 0 0).1.panicked
      = true := by decide

/-- C2 (amended): a second sequential Shutdown call skips the queue and pool
closes because the first call cleared initMessageChannel — that plain flag,
not the atomic shutdown flag, is the guard: a call that finds the atomic
flag already set still performs the closes, and the ticker and cross release
steps run again on the second call. Both sequential calls run to completion
(program point 6) with no double close and no panic; only concurrent calls
can double-close (see the interleaving above). -/
theorem shutdown_sequential_effectively_once :
    ((shutdownCall shutInit).1.channelCloseCount = 1
      ∧ (shutdownCall shutInit).1.poolCloseCount = 1
      ∧ (shutdownCall shutInit).1.panicked = false
      ∧ (shutdownCall shutInit).2 = 6)
  ∧ ((shutdownCall (shutdownCall shutInit).1).1.channelCloseCount = 1
      ∧ (shutdownCall (shutdownCall shutInit).1).1.poolCloseCount = 1
      ∧ (shutdownCall (shutdownCall shutInit).1).1.panicked = false
      ∧ (shutdownCall (shutdownCall shutInit).1).2 = 6
      ∧ (shutdownCall (shutdownCall shutInit).1).1.tickerReleaseCount = 2)
  ∧ (shutdownCall { shutInit with isShutdown := true }).1.channelCloseCount = 1 := by decide

/-- C4 counterexample: a gRPC bind failure (net.Listen) and a KCP bind
failure (ListenWithOptions) are returned synchronously from Run, and a KCP
accept failure is skipped, none of them routed through an Error-kind
envelope — so not every listener-level bind/serve failure reaches the
dispatch pipeline via PushMessage. -/
theorem run_bind_failure_not_pushed :
    runFailureRouting ListenerFailure.grpcBind = FailureRouting.returnedFromRun
  ∧ runFailureRouting ListenerFailure.kcpBind = FailureRouting.returnedFromRun
  ∧ runFailureRouting ListenerFailure.kcpAccept = FailureRouting.ignored
  ∧ FailureRouting.returnedFromRun ≠ FailureRouting.pushedErrorShutdown
  ∧ FailureRouting.ignored ≠ FailureRouting.pushedErrorShutdown := by decide

/-- C4 (amended): each failed asynchronous serve call — gRPC Serve, gnet
Serve for the stream and datagram kinds, HTTP ListenAndServe(TLS) and the
WebSocket ListenAndServe(TLS) — is routed through PushMessage as an
Error-kind envelope carrying the error, the shutdown directive and the
captured stack, appended to a shard queue so Shutdown is entered from a
dispatch loop; the synchronous gRPC and KCP bind failures are instead
returned directly from Run and a KCP accept error is skipped. -/
theorem run_serve_failures_routed (s : Server) (order : List Nat) (k : Nat)
    (e st : String) (pool : MessagePool)
    (hp : s.messagePool = some pool) (hk : order.head? = some k) :
    (∀ f, f ∈ [ListenerFailure.grpcServe, ListenerFailure.gnetServe,
               ListenerFailure.httpServe, ListenerFailure.websocketServe] →
        runFailureRouting f = FailureRouting.pushedErrorShutdown)
  ∧ (runFailureRouting ListenerFailure.grpcBind = FailureRouting.returnedFromRun
      ∧ runFailureRouting ListenerFailure.kcpBind = FailureRouting.returnedFromRun
      ∧ runFailureRouting ListenerFailure.kcpAccept = FailureRouting.ignored)
  ∧ (∃ s2, serveFailurePush s order st e = Except.ok (s2, some k)
      ∧ s2.messageChannel.lookup k =
          (s.messageChannel.lookup k).map (fun q => q ++
            [{ t := MessageType.error,
               attrs := [Attr.errVal e, Attr.action MessageErrorActionShutdown,
                         Attr.stack st] }])) := by
  refine ⟨?_, ⟨rfl, rfl, rfl⟩, ?_⟩
  · intro f hf
    fin_cases hf <;> rfl
  · refine ⟨_, pushMessage_eq s pool order k st MessageType.error
      [Attr.errVal e, Attr.action MessageErrorActionShutdown] hp hk, ?_⟩
    exact enqueue_lookup s.messageChannel k _

/-- Witness for the amended C4 at the provisioned single-core server. -/
theorem run_serve_failures_routed_witness :
    oneCoreServer.messagePool = some { free := [], size := 100, closed := false }
  ∧ (([0] : List Nat).head? = some 0)
  ∧ (∃ s2, serveFailurePush oneCoreServer [0] "trace" "bind failed" = Except.ok (s2, some 0)
      ∧ s2.messageChannel.lookup 0 =
          (oneCoreServer.messageChannel.lookup 0).map (fun q => q ++
            [{ t := MessageType.error,
               attrs := [Attr.errVal "bind failed", Attr.action MessageErrorActionShutdown,
                         Attr.stack "trace"] }])) :=
  ⟨by decide, rfl,
   (run_serve_failures_routed oneCoreServer [0] 0 "bind failed" "trace"
      { free := [], size := 100, closed := false } (by decide) rfl).2.2⟩

/-- C6: a PushMessage call of Error kind appends the captured stack trace as
the final attribute of the envelope at enqueue time, and the Error arm of
the dispatch switch then logs the error with that stack under directive
none, invokes Shutdown with that error and stack under directive shutdown,
and logs a warning for any unknown directive without shutting down. -/
theorem error_envelope_stack_and_dispatch (s : Server) (order : List Nat) (k : Nat)
    (e st : String) (a : Nat) (pool : MessagePool)
    (hp : s.messagePool = some pool) (hk : order.head? = some k) :
    (∃ s2, pushMessage s order st MessageType.error [Attr.errVal e, Attr.action a]
        = Except.ok (s2, some k)
      ∧ s2.messageChannel.lookup k =
          (s.messageChannel.lookup k).map (fun q => q ++
            [{ t := MessageType.error,
               attrs := [Attr.errVal e, Attr.action a, Attr.stack st] }]))
  ∧ dispatchErrorArm [Attr.errVal e, Attr.action MessageErrorActionNone, Attr.stack st]
      = ErrorArmEffect.loggedErrorWithStack e st
  ∧ dispatchErrorArm [Attr.errVal e, Attr.action MessageErrorActionShutdown, Attr.stack st]
      = ErrorArmEffect.shutdownInvoked e st
  ∧ (a ≠ MessageErrorActionNone → a ≠ MessageErrorActionShutdown →
      dispatchErrorArm [Attr.errVal e, Attr.action a, Attr.stack st]
        = ErrorArmEffect.warnedUnknownAction a) := by
  refine ⟨?_, rfl, rfl, ?_⟩
  · refine ⟨_, pushMessage_eq s pool order k st MessageType.error
      [Attr.errVal e, Attr.action a] hp hk, ?_⟩
    exact enqueue_lookup s.messageChannel k _
  · intro h0 h1
    rw [dispatchErrorArm]
    simp [deconstructError, h0, h1]

/-- Witness for C6 on the single-core server with the unknown directive 5. -/
theorem error_envelope_stack_and_dispatch_witness :
    oneCoreServer.messagePool = some { free := [], size := 100, closed := false }
  ∧ (([0] : List Nat).head? = some 0)
  ∧ (5 : Nat) ≠ MessageErrorActionNone
  ∧ (5 : Nat) ≠ MessageErrorActionShutdown
  ∧ (∃ s2, pushMessage oneCoreServer [0] "trace" MessageType.error
        [Attr.errVal "boom", Attr.action 5] = Except.ok (s2, some 0)
      ∧ s2.messageChannel.lookup 0 =
          (oneCoreServer.messageChannel.lookup 0).map (fun q => q ++
            [{ t := MessageType.error,
               attrs := [Attr.errVal "boom", Attr.action 5, Attr.stack "trace"] }]))
  ∧ dispatchErrorArm [Attr.errVal "boom", Attr.action 5, Attr.stack "trace"]
      = ErrorArmEffect.warnedUnknownAction 5 :=
  ⟨by decide, rfl, by decide, by decide,
   (error_envelope_stack_and_dispatch oneCoreServer [0] 0 "boom" "trace" 5
      { free := [], size := 100, closed := false } (by decide) rfl).1,
   (error_envelope_stack_and_dispatch oneCoreServer [0] 0 "boom" "trace" 5
      { free := [], size := 100, closed := false } (by decide) rfl).2.2.2 (by decide) (by decide)⟩

theorem wsReadLoop_empty_allowlist (ip : String) (frames : List (Nat × List Nat)) :
    wsReadLoop [] ip (frames.map (fun p => WsRead.frame p.1 p.2)) =
      { pushed := frames.map (fun p =>
          { t := MessageType.packet,
            attrs := [Attr.connection ip, Attr.bytes p.2, Attr.wsType p.1] }),
        closedEvents := 0 } := by
  induction frames with
  | nil => rfl
  | cons p rest ih => simp [wsReadLoop, ih]

theorem wsReadLoop_blocks_first_bad (supports : List Nat) (ip : String)
    (good : List (Nat × List Nat)) (bad : Nat) (badPk : List Nat) (rest : List WsRead)
    (hne : supports ≠ []) (hgood : ∀ p ∈ good, supports.contains p.1 = true)
    (hbad : supports.contains bad = false) :
    wsReadLoop supports ip
        (good.map (fun p => WsRead.frame p.1 p.2) ++ WsRead.frame bad badPk :: rest) =
      { pushed := good.map (fun p =>
          { t := MessageType.packet,
            attrs := [Attr.connection ip, Attr.bytes p.2, Attr.wsType p.1] }),
        closedEvents := 1 } := by
  have hlen : 0 < supports.length := List.length_pos.mpr hne
  induction good with
  | nil =>
    have hb2 : bad ∉ supports := by simpa using hbad
    simp [wsReadLoop, hlen, hb2]
  | cons p rest2 ih =>
    have hmem : supports.contains p.1 = true := hgood p (by simp)
    have hmem2 : p.1 ∈ supports := by simpa using hmem
    have ih2 := ih (fun q hq => hgood q (by simp [hq]))
    simp [wsReadLoop, hmem2, ih2]

/-- C7: with a non-empty allow-list, the WebSocket read loop pushes every
permitted frame as a Packet envelope whose raw payload is unchanged and, at
the first frame whose sub-type is not permitted, raises the
protocol-violation fault, so the deferred recover fires the
connection-closed hook exactly once and the loop reads no further frame;
with the empty allow-list (the default) every frame sub-type is permitted
and no close event fires. -/
theorem websocket_frame_allowlist (supports : List Nat) (ip : String)
    (good : List (Nat × List Nat)) (bad : Nat) (badPk : List Nat) (rest : List WsRead)
    (hne : supports ≠ []) (hgood : ∀ p ∈ good, supports.contains p.1 = true)
    (hbad : supports.contains bad = false) :
    (wsReadLoop supports ip
        (good.map (fun p => WsRead.frame p.1 p.2) ++ WsRead.frame bad badPk :: rest) =
      { pushed := good.map (fun p =>
          { t := MessageType.packet,
            attrs := [Attr.connection ip, Attr.bytes p.2, Attr.wsType p.1] }),
        closedEvents := 1 })
  ∧ (∀ frames : List (Nat × List Nat),
      wsReadLoop [] ip (frames.map (fun p => WsRead.frame p.1 p.2)) =
        { pushed := frames.map (fun p =>
            { t := MessageType.packet,
              attrs := [Attr.connection ip, Attr.bytes p.2, Attr.wsType p.1] }),
          closedEvents := 0 }) :=
  ⟨wsReadLoop_blocks_first_bad supports ip good bad badPk rest hne hgood hbad,
   fun frames => wsReadLoop_empty_allowlist ip frames⟩

/-- Witness for C7 with the allow-list of binary and ping frames: one binary
frame is forwarded with its payload unchanged, then an inbound text frame
closes the connection exactly once. -/
theorem websocket_frame_allowlist_witness :
    ([2, 9] : List Nat) ≠ []
  ∧ (∀ p ∈ [((2 : Nat), [(7 : Nat), 8])], ([2, 9] : List Nat).contains p.1 = true)
  ∧ ([2, 9] : List Nat).contains 1 = false
  ∧ (wsReadLoop [2, 9] "client"
        ([((2 : Nat), [(7 : Nat), 8])].map (fun p => WsRead.frame p.1 p.2)
          ++ WsRead.frame 1 [] :: []) =
      { pushed := [{ t := MessageType.packet,
                     attrs := [Attr.connection "client", Attr.bytes [7, 8], Attr.wsType 2] }],
        closedEvents := 1 }) :=
  ⟨by decide, by decide, by decide,
   (websocket_frame_allowlist [2, 9] "client" [(2, [7, 8])] 1 [] []
      (by decide) (by decide) (by decide)).1⟩

theorem applyOption_preserves_pool (s : Server) (o : ServerOption) :
    (applyOption s o).messagePool = s.messagePool
  ∧ (applyOption s o).network = s.network := by
  cases o <;>
    first
      | exact ⟨rfl, rfl⟩
      | (rw [applyOption]; split <;> exact ⟨rfl, rfl⟩)

theorem applyOptions_preserves_pool (net : Network) (opts : List ServerOption) :
    (applyOptions (newServer net) opts).messagePool = none
  ∧ (applyOptions (newServer net) opts).network = net := by
  suffices h : ∀ s : Server, s.messagePool = none → s.network = net →
      (applyOptions s opts).messagePool = none ∧ (applyOptions s opts).network = net by
    exact h (newServer net) rfl rfl
  induction opts with
  | nil =>
    intro s h1 h2
    exact ⟨h1, h2⟩
  | cons o rest ih =>
    intro s h1 h2
    have hp := applyOption_preserves_pool s o
    have step : applyOptions s (o :: rest) = applyOptions (applyOption s o) rest := rfl
    rw [step]
    exact ih (applyOption s o) (hp.1.trans h1) (hp.2.trans h2)

/-- C10: PushMessage presupposes a provisioned shard pipeline. The
constructor and every option leave the message pool nil, so before Run any
PushMessage call dereferences the nil pool and faults instead of enqueueing;
and for the HTTP and gRPC kinds Run never provisions the pipeline, so even
the error-routing push the engine performs on a serve failure faults the
same way. -/
theorem pushMessage_nil_pool (net : Network) (opts : List ServerOption)
    (order : List Nat) (st : String) (t : MessageType) (attrs : List Attr)
    (e : String) :
    pushMessage (applyOptions (newServer net) opts) order st t attrs
        = Except.error Fault.nilPoolDeref
  ∧ ((net = Network.http ∨ net = Network.grpc) →
      serveFailurePush (runProvision (applyOptions (newServer net) opts)) order st e
        = Except.error Fault.nilPoolDeref) := by
  have h := applyOptions_preserves_pool net opts
  constructor
  · unfold pushMessage
    rw [h.1]
  · intro hnet
    have hrp : runProvision (applyOptions (newServer net) opts)
        = applyOptions (newServer net) opts := by
      unfold runProvision
      rcases hnet with hh | hh <;> rw [h.2, hh]
    rw [hrp]
    unfold serveFailurePush pushMessage
    rw [h.1]

/-- Witness for C10 on an HTTP server with no options. -/
theorem pushMessage_nil_pool_witness :
    (Network.http = Network.http ∨ Network.http = Network.grpc)
  ∧ pushMessage (applyOptions (newServer Network.http) []) [] "" MessageType.packet []
      = Except.error Fault.nilPoolDeref
  ∧ serveFailurePush (runProvision (applyOptions (newServer Network.http) [])) [] ""
      "serve failed" = Except.error Fault.nilPoolDeref :=
  ⟨Or.inl rfl,
   (pushMessage_nil_pool Network.http [] [] "" MessageType.packet [] "serve failed").1,
   (pushMessage_nil_pool Network.http [] [] "" MessageType.packet [] "serve failed").2
     (Or.inl rfl)⟩

end Minotaur
